import Mathlib

/-!
Verification development for the LLM translation pipeline
(translator.py, translation_engine.py, checkpoint_manager.py).

The Python source is shallowly embedded: pure fragments become Lean
functions, the mutable row loop becomes an explicit fold over a state
record, Python exceptions become `Except`, and the checkpoint file becomes
an explicit `FileContent` value.  Python regular-expression word-boundary
semantics (`\b`, as used with `re.UNICODE` on `str`) are modelled for the
character classes exercised by the development: ASCII alphanumerics,
underscore, and CJK ideographs U+4E00–U+9FFF are word characters.
-/

namespace LLMTS

/-- Word character test modelling Python's `\w` for the characters used in
this development: ASCII alphanumerics, underscore, and the CJK ideograph
block U+4E00–U+9FFF (all of which are word characters under `re.UNICODE`). -/
def isWordChar (c : Char) : Bool :=
  c.isAlphanum || c == '_' || (0x4e00 ≤ c.toNat && c.toNat ≤ 0x9fff)

/-- Whether an optional character counts as a word character (`none` stands
for the edge of the string, which is not a word character). -/
def optWord : Option Char → Bool
  | some c => isWordChar c
  | none => false

/-- Python's `\b` assertion between a previous character (`none` at the
start of the string) and a next character (`none` at the end): it holds iff
exactly one side is a word character. -/
def isBoundary (prev next : Option Char) : Bool :=
  optWord prev != optWord next

/-- Whether the literal pattern `\b term \b` matches at the current
position, where `prev` is the character just before the position and `rest`
is the remainder of the subject string. -/
def matchHere (term : List Char) (prev : Option Char) (rest : List Char) : Bool :=
  isBoundary prev rest.head? &&
  term.isPrefixOf rest &&
  isBoundary (term.getLast?) ((rest.drop term.length).head?)

/-- `re.search(r'\b' + re.escape(term) + r'\b', s)` viewed as a Boolean:
scans every position of the subject string. -/
def hasWholeWordMatch (term : List Char) (prev : Option Char) : List Char → Bool
  | [] => matchHere term prev []
  | c :: cs => matchHere term prev (c :: cs) || hasWholeWordMatch term (some c) cs

/-- Fuel-driven scan implementing `re.sub(r'\b'+re.escape(term)+r'\b', repl, s)`:
left-to-right, non-overlapping matches over the original string, each match
replaced by the literal replacement.  The fuel is an upper bound on the
number of characters still to scan; `subWholeWord` supplies `s.length + 1`. -/
def subGo (term repl : List Char) : Nat → Option Char → List Char → List Char
  | 0, _, rest => rest
  | _ + 1, prev, [] =>
    if matchHere term prev [] then repl else []
  | fuel + 1, prev, c :: cs =>
    if matchHere term prev (c :: cs) then
      repl ++ subGo term repl fuel term.getLast? ((c :: cs).drop term.length)
    else
      c :: subGo term repl fuel (some c) cs

/-- `re.sub` of the whole-word pattern for `term` by `repl` over `s`. -/
def subWholeWord (term repl s : List Char) : List Char :=
  subGo term repl (s.length + 1) none s

/-- Python `str.strip()` for ASCII whitespace (sufficient for the texts
considered here). -/
def pyStrip (s : String) : String :=
  String.mk ((s.data.dropWhile Char.isWhitespace).reverse.dropWhile Char.isWhitespace |>.reverse)

/-- Python `dict` assignment `d[k] = v`: overwrite in place if the key is
present (keeping its original position), otherwise append. -/
def dictInsert (d : List (String × String)) (k v : String) : List (String × String) :=
  if d.any (fun p => p.1 == k) then
    d.map (fun p => if p.1 == k then (k, v) else p)
  else
    d ++ [(k, v)]

/-- Python `dict(pairs)`: fold `dictInsert` over the pairs in order, so a
duplicate key keeps its first position but takes its last value. -/
def dictOfPairs (ps : List (String × String)) : List (String × String) :=
  ps.foldl (fun d p => dictInsert d p.1 p.2) []

/-- Python `d[k]` / `k in d` on the association-list model: first entry with
the given key (keys are unique after `dictOfPairs`). -/
def dlookup (d : List (String × String)) (k : String) : Option String :=
  (d.find? (fun p => p.1 == k)).map (fun p => p.2)

/-- Stable insertion for sorting keys by descending length: `x` goes after
every element at least as long as it, before the first strictly shorter one,
matching Python's stable `sorted(keys, key=len, reverse=True)`. -/
def insertByLenDesc (x : String) : List String → List String
  | [] => [x]
  | y :: ys =>
    if y.length < x.length then x :: y :: ys
    else y :: insertByLenDesc x ys

/-- `sorted(keys, key=len, reverse=True)`: stable descending sort by
character length. -/
def sortByLenDesc (ks : List String) : List String :=
  ks.foldl (fun acc k => insertByLenDesc k acc) []

/-- The `TerminologyEngine` dictionaries: the forward map and the reverse
map built as `{v: k for k, v in terminology_dict.items()}`.  The replacement
cache is not modelled: `replace_terms_in_text` caches and replays the value
computed by this pure function, so the cache is observationally the
identity. -/
structure TerminologyEngine where
  terminology_dict : List (String × String)
  reverse_dict : List (String × String)
deriving DecidableEq, Repr

/-- `{v: k for k, v in d.items()}`. -/
def mkReverse (d : List (String × String)) : List (String × String) :=
  dictOfPairs (d.map (fun p => (p.2, p.1)))

/-- `TerminologyEngine._update_sorted_cache` for one direction: the keys of
the direction's dictionary sorted by descending length. -/
def sortedTerms (source_dict : List (String × String)) : List String :=
  sortByLenDesc (source_dict.map (fun p => p.1))

/-- `TerminologyEngine.replace_terms_in_text`: picks the direction's
dictionary, walks its keys in length-descending order, and for each key
with a whole-word match replaces all whole-word occurrences and appends a
`term -> translation` audit string. -/
def replace_terms_in_text (eng : TerminologyEngine) (text source_lang target_lang : String) :
    String × List String :=
  if eng.terminology_dict.isEmpty then
    (text, [])
  else
    let source_dict :=
      if source_lang == "zh" && target_lang == "en" then eng.terminology_dict
      else eng.reverse_dict
    (sortedTerms source_dict).foldl
      (fun acc term =>
        match dlookup source_dict term with
        | some target_term =>
          if hasWholeWordMatch term.data none acc.1.data then
            (String.mk (subWholeWord term.data target_term.data acc.1.data),
             acc.2 ++ [term ++ " -> " ++ target_term])
          else acc
        | none => acc)
      (text, [])

/-- `TranslationEngine.is_fully_translated`: for source language `"zh"`,
true iff the text contains no CJK ideograph in U+4E00–U+9FFF; false for any
other source language. -/
def is_fully_translated (text source_lang : String) : Bool :=
  if source_lang == "zh" then
    !(text.data.any (fun c => 0x4e00 ≤ c.toNat && c.toNat ≤ 0x9fff))
  else
    false

/-- A dataset cell: `none` models pandas `NaN`, `some s` a string value. -/
abbrev Cell := Option String

/-- A dataframe as an ordered list of columns, each a column name with its
ordered list of cells (pandas default `RangeIndex`). -/
abbrev DataFrame := List (String × List Cell)

/-- The serialized form produced by `df.to_dict()`: per column, a mapping
from row position to cell, here the list of (position, cell) pairs. -/
abbrev SerializedDF := List (String × List (Nat × Cell))

/-- `df.to_dict()`. -/
def serializeDF (df : DataFrame) : SerializedDF :=
  df.map (fun col => (col.1, col.2.enum))

/-- `pd.DataFrame.from_dict(d)` for a dict produced by `to_dict` on a
default-indexed frame. -/
def deserializeDF (s : SerializedDF) : DataFrame :=
  s.map (fun col => (col.1, col.2.map (fun iv => iv.2)))

/-- The statistics dictionary threaded through the pipeline. -/
structure Stats where
  total_replacements : Nat
deriving DecidableEq, Repr

/-- A deserialized checkpoint record; every field is optional because a
reader must tolerate records with fields missing. -/
structure Checkpoint where
  timestamp : Option String := none
  current_index : Option Int := none
  total_rows : Option Nat := none
  completed_indices : Option (List Nat) := none
  failed_indices : Option (List Nat) := none
  statistics : Option Stats := none
  dataframe : Option SerializedDF := none
  input_file : Option String := none
  output_file : Option String := none
deriving DecidableEq, Repr

/-- The exception that opening, unpickling, or validating a present
checkpoint file raises: `osError` (I/O failure), `pickleError` (malformed
pickle bytes, `pickle.UnpicklingError`), `keyError`, `eofError`
(`pickle.load` on an empty or exhausted stream, as a write interrupted
right after the truncating open leaves behind), and `typeError` (the file
unpickles to a non-container, so `key in checkpoint` inside
`_validate_checkpoint` raises). -/
inductive PickleExn where
  | osError : PickleExn
  | pickleError : PickleExn
  | keyError : PickleExn
  | eofError : PickleExn
  | typeError : PickleExn
deriving DecidableEq, Repr

/-- Whether the exception is in `load_checkpoint`'s except tuple
`(OSError, pickle.PickleError, KeyError)`.  `EOFError` and `TypeError` are
not: they propagate out of `load_checkpoint` uncaught. -/
def caught_by_load : PickleExn → Bool
  | .osError => true
  | .pickleError => true
  | .keyError => true
  | .eofError => false
  | .typeError => false

/-- The state of the checkpoint file slot: absent, present but such that
reading it raises the given exception, or present with a deserializable
record. -/
inductive FileContent where
  | absent : FileContent
  | raising : PickleExn → FileContent
  | parsed : Checkpoint → FileContent
deriving DecidableEq, Repr

/-- `CheckpointManager._validate_checkpoint`: all four required keys
(`current_index`, `total_rows`, `completed_indices`, `dataframe`) present. -/
def validate_checkpoint (c : Checkpoint) : Bool :=
  c.current_index.isSome && c.total_rows.isSome &&
  c.completed_indices.isSome && c.dataframe.isSome

/-- `CheckpointManager.load_checkpoint`: `.ok none` if the file is absent,
if reading it raises an exception in the except tuple
`(OSError, pickle.PickleError, KeyError)`, or if the record fails
validation; the validated record otherwise.  An exception outside the
tuple — `EOFError` on an empty/exhausted stream, `TypeError` from
validating a non-container — is `.error`: it propagates to the caller. -/
def load_checkpoint : FileContent → Except PickleExn (Option Checkpoint)
  | .absent => .ok none
  | .raising e => if caught_by_load e then .ok none else .error e
  | .parsed c => .ok (if validate_checkpoint c then some c else none)

/-- The record assembled by `CheckpointManager.save_checkpoint`: every
field is populated. -/
def save_checkpoint (ts : String) (current_idx : Int) (total_rows : Nat)
    (df : DataFrame) (completed failed : List Nat) (stats : Stats)
    (input_file output_file : String) : Checkpoint :=
  { timestamp := some ts,
    current_index := some current_idx,
    total_rows := some total_rows,
    completed_indices := some completed,
    failed_indices := some failed,
    statistics := some stats,
    dataframe := some (serializeDF df),
    input_file := some input_file,
    output_file := some output_file }

/-- The phases of `save_checkpoint`'s file write: `open(path, 'wb')`
truncates the checkpoint file in place, then the pickle is written.  An
interruption after the truncating open but before the write completes
leaves an empty file, on which `pickle.load` raises `EOFError`. -/
inductive SavePhase where
  | beforeOpen : SavePhase
  | afterOpen : SavePhase
  | afterWrite : SavePhase
deriving DecidableEq, Repr

/-- The checkpoint file's content when a save over previous content `prev`
has reached the given phase. -/
def save_file_state (prev : FileContent) (data : Checkpoint) : SavePhase → FileContent
  | .beforeOpen => prev
  | .afterOpen => .raising .eofError
  | .afterWrite => .parsed data

/-- `CheckpointManager.get_resume_info`: Python evaluates
`completed/total*100`, which raises `ZeroDivisionError` when `total` is 0;
the success branch is rendered with the fraction in tenths of a percent.
The formatted text is built from the same fields the source interpolates. -/
def get_resume_info (c : Checkpoint) : Except String String :=
  let completed := (c.completed_indices.getD []).length
  let total := c.total_rows.getD 0
  let timestamp := c.timestamp.getD "Unknown"
  if total == 0 then
    .error "ZeroDivisionError: division by zero"
  else
    .ok ("检查点时间: " ++ timestamp ++ "\n进度: " ++ toString completed ++ "/" ++
      toString total ++ " (" ++ toString (completed * 1000 / total) ++ " permille)")

/-- One attempt of the translation client: the service call either raises
an exception or yields a response body. -/
inductive Attempt where
  | exn : String → Attempt
  | resp : String → Attempt
deriving DecidableEq, Repr

/-- `TranslationEngine._is_html_response` for the lowercase prefixes the
source checks (`text.lower().startswith(('<!doctype html>', '<html'))`),
modelling `str.lower` on ASCII. -/
def is_html_response (t : String) : Bool :=
  let low := String.mk (t.data.map Char.toLower)
  "<!doctype html>".data.isPrefixOf low.data || "<html".data.isPrefixOf low.data

/-- `TranslationEngine._extract_response_content` for a plain-string
response body: `response.strip()`. -/
def extract_response_content (r : String) : String := pyStrip r

/-- The retry loop of `TranslationEngine.translate_text`, one iteration per
unit of fuel; `k` is the current attempt index.  A valid (non-empty,
non-HTML) response returns; an exception on the last attempt re-raises; an
invalid response just moves to the next attempt; a completed loop returns
the failure-marker string. -/
def translateGo (att : Nat → Attempt) (max_retries : Nat) : Nat → Nat → Except String String
  | _, 0 => .ok "[翻译失败: 超过最大重试次数]"
  | k, fuel + 1 =>
    match att k with
    | .resp r =>
      let result := extract_response_content r
      if result ≠ "" && !is_html_response result then
        .ok result
      else
        translateGo att max_retries (k + 1) fuel
    | .exn m =>
      if k == max_retries - 1 then
        .error m
      else
        translateGo att max_retries (k + 1) fuel

/-- `TranslationEngine.translate_text`, parameterized by the outcome of
each attempt (`att k` is what attempt `k` does). -/
def translate_text (att : Nat → Attempt) (max_retries : Nat) : Except String String :=
  translateGo att max_retries 0 max_retries

/-- Python `s[:n]`. -/
def pyTake (n : Nat) (s : String) : String := String.mk (s.data.take n)

/-- The observable outcome of one iteration of the row loop in
`TranslationOrchestrator._execute_translation`. -/
structure RowOutcome where
  networkCalled : Bool
  delayApplied : Bool
  targetWrite : Option String
  markCompleted : Bool
  markFailed : Bool
deriving DecidableEq, Repr

/-- The source's inter-request delay condition
`replaced_terms and len(replaced_terms) == 0`. -/
def delayCondition (replaced_terms : List String) : Bool :=
  !replaced_terms.isEmpty && replaced_terms.length == 0

/-- One iteration of the row loop: strip the source cell, skip a blank row
as completed; otherwise substitute terms when a terminology engine is
configured, short-circuit the network call only when a terminology engine
is configured and the processed text is fully translated, and on a raised
translation error write a diagnostic marker and mark the row failed.
`translate` is the outcome of `translate_text` on the processed text. -/
def rowStep (termEng : Option TerminologyEngine) (translate : String → Except String String)
    (sourceCell source_lang target_lang : String) : RowOutcome :=
  let source_text := pyStrip sourceCell
  if source_text == "" then
    { networkCalled := false, delayApplied := false, targetWrite := none,
      markCompleted := true, markFailed := false }
  else
    let sub :=
      match termEng with
      | some eng => replace_terms_in_text eng source_text source_lang target_lang
      | none => (source_text, [])
    let callNeeded := !(termEng.isSome && is_fully_translated sub.1 source_lang)
    let tres := if callNeeded then translate sub.1 else .ok sub.1
    let delayed := delayCondition sub.2
    match tres with
    | .ok t =>
      { networkCalled := callNeeded, delayApplied := delayed, targetWrite := some t,
        markCompleted := true, markFailed := false }
    | .error e =>
      { networkCalled := callNeeded, delayApplied := delayed,
        targetWrite := some ("[翻译失败: " ++ pyTake 50 e ++ "]"),
        markCompleted := false, markFailed := true }

/-- Pipeline bookkeeping state: the log of target-cell writes and the
`completed_indices` / `failed_indices` lists. -/
structure PipeState where
  writes : List (Nat × String)
  completed : List Nat
  failed : List Nat
deriving DecidableEq, Repr

/-- Apply one row outcome to the bookkeeping state at row `idx`. -/
def applyRow (st : PipeState) (idx : Nat) (o : RowOutcome) : PipeState :=
  { writes := match o.targetWrite with
      | some t => st.writes ++ [(idx, t)]
      | none => st.writes,
    completed := if o.markCompleted then st.completed ++ [idx] else st.completed,
    failed := if o.markFailed then st.failed ++ [idx] else st.failed }

/-- The row loop over a list of pending row indices: `src idx` is the
(stringified) source cell of row `idx`.  A failed row updates the state and
the loop proceeds to the remaining rows. -/
def processRows (termEng : Option TerminologyEngine)
    (translate : String → Except String String) (src : Nat → String)
    (source_lang target_lang : String) (st : PipeState) : List Nat → PipeState
  | [] => st
  | idx :: rest =>
    processRows termEng translate src source_lang target_lang
      (applyRow st idx (rowStep termEng translate (src idx) source_lang target_lang)) rest

/-- The `empty_mask` test of `process_translation`: a target cell is
pending when it is NaN, the empty string, or the literal string "nan". -/
def isBlankTarget : Cell → Bool
  | none => true
  | some s => s == "" || s == "nan"

/-- `rows_to_translate`: indices whose target cell is blank, minus the
completed indices. -/
def pendingRows (target : Nat → Cell) (n : Nat) (completed : List Nat) : List Nat :=
  ((List.range n).filter (fun i => isBlankTarget (target i))).filter
    (fun i => !completed.contains i)

/-- `TerminologyEngine.load_terminology` after the Excel read, parameterized
by the table's column count and its rows restricted to the first two
columns: fewer than two columns raises `ValueError`; otherwise rows with a
missing (NaN), empty, or literal-"nan" cell are dropped, the remaining
pairs are stripped, and the dictionary is built with duplicate keys
resolved last-pair-wins. -/
def load_terminology (ncols : Nat) (rows : List (Cell × Cell)) :
    Except String (List (String × String)) :=
  if ncols < 2 then
    .error "术语库文件至少需要两列"
  else
    let valid := rows.filter (fun rc =>
      rc.1.isSome && rc.2.isSome &&
      rc.1 != some "" && rc.2 != some "" &&
      rc.1 != some "nan" && rc.2 != some "nan")
    .ok (dictOfPairs (valid.map (fun rc => (pyStrip (rc.1.getD ""), pyStrip (rc.2.getD "")))))

theorem enumFrom_map_snd {α : Type} (n : Nat) (l : List α) :
    (l.enumFrom n).map (fun iv => iv.2) = l := by
  induction l generalizing n with
  | nil => rfl
  | cons a as ih => simp [List.enumFrom, ih]

theorem enum_map_snd {α : Type} (l : List α) : (l.enum.map fun iv => iv.2) = l :=
  enumFrom_map_snd 0 l

theorem deserialize_serialize (df : DataFrame) : deserializeDF (serializeDF df) = df := by
  induction df with
  | nil => rfl
  | cons col rest ih =>
    show (col.1, (col.2.enum.map fun iv => iv.2)) :: deserializeDF (serializeDF rest) =
      col :: rest
    rw [enum_map_snd, ih]

/-- C1: at the claim's own example — dictionary `{"人工智能": "AI", "能": "can"}`
and input `"人工智能很强"` — `replace_terms_in_text` returns the input
unchanged with an empty applied-terms list, not the claimed `"AI很强"`:
the `\b` word-boundary assertion never holds between two CJK ideographs
(both are word characters), so neither key ever matches inside running
Chinese text. -/
theorem c1_replace_terms_word_boundary_eval :
    replace_terms_in_text
      { terminology_dict := dictOfPairs [("人工智能", "AI"), ("能", "can")],
        reverse_dict := mkReverse (dictOfPairs [("人工智能", "AI"), ("能", "can")]) }
      "人工智能很强" "zh" "en" = ("人工智能很强", []) ∧
    ("人工智能很强" : String) ≠ "AI很强" := by decide

/-- C2: a checkpoint assembled by `save_checkpoint` and read back by
`load_checkpoint` with no intervening write validates successfully and
returns the record unchanged, and the `completed` list, `failed` list, and
dataset content (through `to_dict`/`from_dict`) round-trip exactly. -/
theorem c2_checkpoint_roundtrip (ts : String) (idx : Int) (total : Nat) (df : DataFrame)
    (completed failed : List Nat) (stats : Stats) (inp outp : String) :
    load_checkpoint (.parsed (save_checkpoint ts idx total df completed failed stats inp outp)) =
      .ok (some (save_checkpoint ts idx total df completed failed stats inp outp)) ∧
    (save_checkpoint ts idx total df completed failed stats inp outp).completed_indices =
      some completed ∧
    (save_checkpoint ts idx total df completed failed stats inp outp).failed_indices =
      some failed ∧
    (save_checkpoint ts idx total df completed failed stats inp outp).dataframe.map deserializeDF =
      some df := by
  refine ⟨?_, rfl, rfl, ?_⟩
  · simp [load_checkpoint, validate_checkpoint, save_checkpoint]
  · simp [save_checkpoint, deserialize_serialize]

/-- A deserialized record with the required `total_rows` field missing. -/
def malformedCheckpoint : Checkpoint :=
  { current_index := some 0, total_rows := none,
    completed_indices := some [], dataframe := some [] }

/-- C4: `load_checkpoint` does return `none` for an absent file, for an
unpickling failure in the except tuple (`OSError`,
`pickle.UnpicklingError`, `KeyError`), and for a record missing a required
field — but not for every corrupt state: on an empty or exhausted stream
(for example the empty file a crash during `save_checkpoint` leaves
behind) `pickle.load` raises `EOFError`, and on a file unpickling to a
non-container `_validate_checkpoint` raises `TypeError`; neither is in the
except tuple, so the exception propagates out of `load_checkpoint` instead
of being swallowed, refuting "returns none rather than raising any
error". -/
theorem c4_load_eoferror_eval :
    load_checkpoint .absent = .ok none ∧
    load_checkpoint (.raising .osError) = .ok none ∧
    load_checkpoint (.raising .pickleError) = .ok none ∧
    load_checkpoint (.raising .keyError) = .ok none ∧
    load_checkpoint (.parsed malformedCheckpoint) = .ok none ∧
    load_checkpoint (.raising .eofError) = .error .eofError ∧
    load_checkpoint (.raising .typeError) = .error .typeError :=
  ⟨rfl, rfl, rfl, rfl, rfl, rfl, rfl⟩

/-- A concrete previous snapshot used to exhibit the non-atomicity of
`save_checkpoint`. -/
def prevSnapshot : Checkpoint :=
  save_checkpoint "t0" 0 2 [("中文", [some "你好", some "世界"]), ("英文", [some "hello", none])]
    [0] [] ⟨1⟩ "in.xlsx" "out.xlsx"

/-- C5 counterexample: the previous snapshot is loadable, but a save
interrupted after the truncating `open(path, 'wb')` and before the pickle
write completes leaves an empty file on which `pickle.load` raises
`EOFError`, so `load_checkpoint` no longer recovers the previous snapshot
— the claimed crash-safety fails. -/
theorem c5_interrupted_save_counterexample :
    load_checkpoint (.parsed prevSnapshot) = .ok (some prevSnapshot) ∧
    load_checkpoint (save_file_state (.parsed prevSnapshot)
      (save_checkpoint "t1" 1 2 [("中文", [some "你好", some "世界"])] [0, 1] [] ⟨1⟩
        "in.xlsx" "out.xlsx") .afterOpen) ≠ .ok (some prevSnapshot) :=
  ⟨rfl, fun h => Except.noConfusion h⟩

/-- C5 amended: `save_checkpoint` rewrites the checkpoint file in place
(`open(path, 'wb')` truncates, then the pickle is written; no
temp-then-replace): a completed save leaves the new snapshot loadable, but
a write interrupted between the truncating open and the completed write
destroys the previous snapshot and leaves an empty file on which a
subsequent `load_checkpoint` raises an uncaught `EOFError` — crashing the
resume check that calls it — rather than preserving the previous
snapshot. -/
theorem c5_save_in_place_amended (prev : FileContent) (ts : String) (idx : Int)
    (total : Nat) (df : DataFrame) (completed failed : List Nat) (stats : Stats)
    (inp outp : String) :
    load_checkpoint (save_file_state prev
        (save_checkpoint ts idx total df completed failed stats inp outp) .afterWrite) =
      .ok (some (save_checkpoint ts idx total df completed failed stats inp outp)) ∧
    load_checkpoint (save_file_state prev
        (save_checkpoint ts idx total df completed failed stats inp outp) .afterOpen) =
      .error .eofError := by
  exact ⟨by simp [load_checkpoint, save_file_state, validate_checkpoint, save_checkpoint], rfl⟩

/-- The text handed to the translation call for a given row: the stripped
source text after terminology substitution when a terminology engine is
configured, the stripped source text itself otherwise. -/
def processedText (termEng : Option TerminologyEngine) (source_text sl tl : String) : String :=
  match termEng with
  | some eng => (replace_terms_in_text eng source_text sl tl).1
  | none => source_text

theorem delayCondition_false (l : List String) : delayCondition l = false := by
  cases l <;> simp [delayCondition]

theorem translateGo_all_exn (att : Nat → Attempt) (m : Nat → String) (mx : Nat)
    (hatt : ∀ k, k < mx → att k = .exn (m k)) :
    ∀ fuel k, k + fuel = mx → 0 < fuel →
      translateGo att mx k fuel = .error (m (mx - 1)) := by
  intro fuel
  induction fuel with
  | zero => intro k _ h; exact absurd h (lt_irrefl 0)
  | succ f ih =>
    intro k hk _
    have hklt : k < mx := by omega
    simp only [translateGo, hatt k hklt]
    by_cases hlast : k = mx - 1
    · simp [hlast]
    · have hbeq : (k == mx - 1) = false := by simp [hlast]
      rw [hbeq, if_neg (by simp)]
      exact ih (k + 1) (by omega) (by omega)

theorem translate_text_all_exn (att : Nat → Attempt) (m : Nat → String) (mx : Nat)
    (h1 : 1 ≤ mx) (hatt : ∀ k, k < mx → att k = .exn (m k)) :
    translate_text att mx = .error (m (mx - 1)) :=
  translateGo_all_exn att m mx hatt mx 0 (by omega) (by omega)

theorem rowStep_error_outcome (termEng : Option TerminologyEngine)
    (translate : String → Except String String) (cell sl tl e : String)
    (hnb : pyStrip cell ≠ "")
    (hsc : (termEng.isSome && is_fully_translated (processedText termEng (pyStrip cell) sl tl) sl)
      = false)
    (htr : translate (processedText termEng (pyStrip cell) sl tl) = .error e) :
    rowStep termEng translate cell sl tl =
      { networkCalled := true, delayApplied := false,
        targetWrite := some ("[翻译失败: " ++ pyTake 50 e ++ "]"),
        markCompleted := false, markFailed := true } := by
  have hbeq : (pyStrip cell == "") = false := beq_eq_false_iff_ne.mpr hnb
  cases termEng <;>
    simp_all [rowStep, processedText, delayCondition_false]

/-- C6: the inter-request delay condition
`replaced_terms and len(replaced_terms) == 0` is unsatisfiable — a list
cannot be non-empty and of length zero — so the delay is never applied; in
particular a concrete iteration that does invoke the translation service
(no terminology engine, non-blank CJK source, successful network call)
still applies no delay, contradicting the claim (and the source's own
comment that the delay fires exactly on API calls). -/
theorem c6_delay_never_applied_eval :
    (∀ replaced_terms : List String, delayCondition replaced_terms = false) ∧
    (rowStep none (fun t => .ok ("T:" ++ t)) "你好" "zh" "en").networkCalled = true ∧
    (rowStep none (fun t => .ok ("T:" ++ t)) "你好" "zh" "en").delayApplied = false := by
  exact ⟨delayCondition_false, by decide, by decide⟩

/-- C7: `get_resume_info` computes `completed/total*100` with no guard, so
describing a snapshot whose `total_rows` is 0 raises `ZeroDivisionError`
instead of returning a summary; the empty record (what the caller passes
when a present checkpoint file fails to load) and a saved snapshot with
`total_rows = 0` both hit the unguarded division. -/
theorem c7_resume_info_div_zero_eval :
    get_resume_info {} = .error "ZeroDivisionError: division by zero" ∧
    get_resume_info (save_checkpoint "t0" 0 0 [] [] [] ⟨0⟩ "in.xlsx" "out.xlsx") =
      .error "ZeroDivisionError: division by zero" :=
  ⟨rfl, rfl⟩

/-- C10: with no terminology engine configured, the short-circuit test
`self.terminology_engine and is_fully_translated(...)` is false regardless
of the text, so every pending row whose stripped source cell is non-blank
invokes the translation service — even when the text is already fully
translated (contains no CJK ideographs). -/
theorem c10_no_terminology_always_network (translate : String → Except String String)
    (cell : String) (hnb : pyStrip cell ≠ "")
    (hft : is_fully_translated (pyStrip cell) "zh" = true) :
    (rowStep none translate cell "zh" "en").networkCalled = true := by
  have h1 : (pyStrip cell == "") = false := beq_eq_false_iff_ne.mpr hnb
  rcases h : translate (pyStrip cell) with t | e <;>
    simp [rowStep, h1, h]

theorem c10_no_terminology_always_network_witness :
    (rowStep none (fun t => Except.ok t) "Hello world" "zh" "en").networkCalled = true :=
  c10_no_terminology_always_network (fun t => Except.ok t) "Hello world"
    (by decide) (by decide)

/-- C3 counterexample: with `max_retries = 3` and every attempt returning
an HTML error page (an invalid response, with no exception raised),
`translate_text` does not raise — it returns the failure-marker string,
so the claim that exhausted retries always surface an error is false. -/
theorem c3_invalid_responses_return_counterexample :
    translate_text (fun _ => .resp "<html><body>502 Bad Gateway</body></html>") 3 =
      .ok "[翻译失败: 超过最大重试次数]" := rfl

/-- C3 amended: when every one of the `max_retries` attempts raises an
exception, `translate_text` re-raises the last attempt's exception (not a
wrapper); the row loop then marks that row failed (not completed), writes
the diagnostic marker `[翻译失败: …]` into its target cell, and continues
with the subsequent rows.  (When attempts instead return invalid responses
without raising, `translate_text` returns the marker string
`[翻译失败: 超过最大重试次数]` as a successful value.) -/
theorem c3_retry_exhaustion_amended
    (max_retries : Nat) (att : Nat → Attempt) (m : Nat → String)
    (h1 : 1 ≤ max_retries)
    (hatt : ∀ k, k < max_retries → att k = .exn (m k))
    (termEng : Option TerminologyEngine) (translate : String → Except String String)
    (src : Nat → String) (sl tl : String) (st : PipeState) (idx : Nat)
    (rest : List Nat) (e : String)
    (hnb : pyStrip (src idx) ≠ "")
    (hsc : (termEng.isSome &&
      is_fully_translated (processedText termEng (pyStrip (src idx)) sl tl) sl) = false)
    (htr : translate (processedText termEng (pyStrip (src idx)) sl tl) = .error e) :
    translate_text att max_retries = .error (m (max_retries - 1)) ∧
    (rowStep termEng translate (src idx) sl tl).markFailed = true ∧
    (rowStep termEng translate (src idx) sl tl).markCompleted = false ∧
    (rowStep termEng translate (src idx) sl tl).targetWrite =
      some ("[翻译失败: " ++ pyTake 50 e ++ "]") ∧
    idx ∈ (applyRow st idx (rowStep termEng translate (src idx) sl tl)).failed ∧
    processRows termEng translate src sl tl st (idx :: rest) =
      processRows termEng translate src sl tl
        (applyRow st idx (rowStep termEng translate (src idx) sl tl)) rest := by
  have hrow := rowStep_error_outcome termEng translate (src idx) sl tl e hnb hsc htr
  refine ⟨translate_text_all_exn att m max_retries h1 hatt, ?_, ?_, ?_, ?_, rfl⟩
  · rw [hrow]
  · rw [hrow]
  · rw [hrow]
  · rw [hrow]; simp [applyRow]

theorem c3_retry_exhaustion_amended_witness :
    translate_text (fun _ => .exn "Connection timed out") 3 =
      .error "Connection timed out" ∧
    (rowStep none (fun _ => .error "Connection timed out") "你好" "zh" "en").markFailed = true ∧
    (rowStep none (fun _ => .error "Connection timed out") "你好" "zh" "en").markCompleted
      = false ∧
    (rowStep none (fun _ => .error "Connection timed out") "你好" "zh" "en").targetWrite =
      some ("[翻译失败: " ++ pyTake 50 "Connection timed out" ++ "]") ∧
    2 ∈ (applyRow ⟨[], [0], []⟩ 2
      (rowStep none (fun _ => .error "Connection timed out") "你好" "zh" "en")).failed ∧
    processRows none (fun _ => .error "Connection timed out") (fun _ => "你好") "zh" "en"
        ⟨[], [0], []⟩ [2, 3] =
      processRows none (fun _ => .error "Connection timed out") (fun _ => "你好") "zh" "en"
        (applyRow ⟨[], [0], []⟩ 2
          (rowStep none (fun _ => .error "Connection timed out") "你好" "zh" "en")) [3] :=
  c3_retry_exhaustion_amended 3 (fun _ => .exn "Connection timed out")
    (fun _ => "Connection timed out") (by decide) (fun k _ => rfl)
    none (fun _ => .error "Connection timed out") (fun _ => "你好") "zh" "en"
    ⟨[], [0], []⟩ 2 [3] "Connection timed out" (by decide) (by decide) rfl

theorem find_replace (d : List (String × String)) (k v : String)
    (h : d.any (fun q => q.1 == k) = true) :
    (d.map (fun q => if q.1 == k then (k, v) else q)).find? (fun q => q.1 == k) =
      some (k, v) := by
  induction d with
  | nil => simp at h
  | cons p d ih =>
    by_cases hp : (p.1 == k) = true
    · rw [List.map_cons, if_pos hp, List.find?_cons_of_pos _ (by simp)]
    · have hpf : (p.1 == k) = false := eq_false_of_ne_true hp
      have h' : d.any (fun q => q.1 == k) = true := by
        rw [List.any_cons, hpf] at h
        simpa using h
      rw [List.map_cons, if_neg hp,
        List.find?_cons_of_neg (p := fun q => q.1 == k) (a := p) _ hp, ih h']

theorem find_append_self (d : List (String × String)) (k v : String)
    (h : d.any (fun q => q.1 == k) = false) :
    (d ++ [(k, v)]).find? (fun q => q.1 == k) = some (k, v) := by
  induction d with
  | nil => rw [List.nil_append, List.find?_cons_of_pos _ (by simp)]
  | cons p d ih =>
    have hp : (p.1 == k) = false := by
      by_contra hc
      rw [List.any_cons, eq_true_of_ne_false hc] at h
      simp at h
    have h' : d.any (fun q => q.1 == k) = false := by
      rw [List.any_cons, hp] at h
      simpa using h
    rw [List.cons_append,
      List.find?_cons_of_neg (p := fun q => q.1 == k) (a := p) _ (by simp [hp]), ih h']

theorem dlookup_dictInsert (d : List (String × String)) (k v : String) :
    dlookup (dictInsert d k v) k = some v := by
  unfold dictInsert dlookup
  by_cases h : d.any (fun p => p.1 == k) = true
  · rw [if_pos h, find_replace d k v h]
    rfl
  · rw [if_neg h, find_append_self d k v (eq_false_of_ne_true h)]
    rfl

theorem dictOfPairs_append_last (ps : List (String × String)) (k v : String) :
    dlookup (dictOfPairs (ps ++ [(k, v)])) k = some v := by
  unfold dictOfPairs
  rw [List.foldl_append]
  exact dlookup_dictInsert _ k v

/-- C8 counterexample: a terminology source with two columns but zero valid
(source, target) pairs — no rows at all, or only rows with a missing or
empty cell — does not raise: `load_terminology` succeeds with an empty
dictionary, contrary to the claimed fewer-than-one-valid-pair validation
error. -/
theorem c8_empty_terminology_counterexample :
    load_terminology 2 [] = .ok [] ∧
    load_terminology 2 [(none, some "AI"), (some "", some "AI"), (some "能", some "nan")] =
      .ok [] := ⟨rfl, rfl⟩

/-- C8 amended: `load_terminology` raises its validation error exactly when
the terminology table has fewer than two columns (checked before any pair
is processed); a source yielding zero valid pairs is accepted and simply
produces an empty dictionary; duplicate source terms are not fatal and
resolve last-pair-wins. -/
theorem c8_load_terminology_amended (ncols : Nat) (rows : List (Cell × Cell))
    (ps : List (String × String)) (k v : String) :
    (ncols < 2 → load_terminology ncols rows = .error "术语库文件至少需要两列") ∧
    (2 ≤ ncols → ∃ d, load_terminology ncols rows = .ok d) ∧
    dlookup (dictOfPairs (ps ++ [(k, v)])) k = some v := by
  refine ⟨fun h => ?_, fun h => ?_, dictOfPairs_append_last ps k v⟩
  · simp [load_terminology, h]
  · have h2 : ¬ ncols < 2 := by omega
    unfold load_terminology
    rw [if_neg h2]
    exact ⟨_, rfl⟩

theorem c8_load_terminology_amended_witness :
    load_terminology 1 [(some "人工智能", some "AI")] = .error "术语库文件至少需要两列" ∧
    (∃ d, load_terminology 2 [(some "人工智能", some "AI")] = .ok d) ∧
    dlookup (dictOfPairs ([("能", "can")] ++ [("能", "able")])) "能" = some "able" :=
  ⟨(c8_load_terminology_amended 1 [(some "人工智能", some "AI")] [("能", "can")]
      "能" "able").1 (by decide),
   (c8_load_terminology_amended 2 [(some "人工智能", some "AI")] [("能", "can")]
      "能" "able").2.1 (by decide),
   (c8_load_terminology_amended 2 [(some "人工智能", some "AI")] [("能", "can")]
      "能" "able").2.2⟩

theorem rowStep_mark_exclusive (termEng : Option TerminologyEngine)
    (translate : String → Except String String) (cell sl tl : String) :
    ((rowStep termEng translate cell sl tl).markCompleted &&
      (rowStep termEng translate cell sl tl).markFailed) = false := by
  unfold rowStep
  dsimp only
  split
  · rfl
  · split <;> rfl

theorem applyRow_completed (st : PipeState) (idx : Nat) (o : RowOutcome) :
    (applyRow st idx o).completed =
      if o.markCompleted then st.completed ++ [idx] else st.completed := rfl

theorem applyRow_failed (st : PipeState) (idx : Nat) (o : RowOutcome) :
    (applyRow st idx o).failed =
      if o.markFailed then st.failed ++ [idx] else st.failed := rfl

theorem processRows_inv (termEng : Option TerminologyEngine)
    (translate : String → Except String String) (src : Nat → String) (sl tl : String) :
    ∀ (p : List Nat) (st : PipeState),
      (∀ x ∈ st.completed, x ∉ st.failed) →
      (∀ x ∈ p, x ∉ st.completed) →
      (∀ x ∈ p, x ∉ st.failed) →
      p.Nodup →
      (∀ x ∈ (processRows termEng translate src sl tl st p).completed,
          x ∉ (processRows termEng translate src sl tl st p).failed) ∧
      (∀ x ∈ (processRows termEng translate src sl tl st p).completed,
          x ∈ st.completed ∨ x ∈ p) ∧
      (∀ x ∈ (processRows termEng translate src sl tl st p).failed,
          x ∈ st.failed ∨ x ∈ p) := by
  intro p
  induction p with
  | nil =>
    intro st hdisj _ _ _
    exact ⟨hdisj, fun x hx => Or.inl hx, fun x hx => Or.inl hx⟩
  | cons idx rest ih =>
    intro st hdisj hfC hfF hnd
    have hex := rowStep_mark_exclusive termEng translate (src idx) sl tl
    have hidxC : idx ∉ st.completed := hfC idx (List.mem_cons_self idx rest)
    have hidxF : idx ∉ st.failed := hfF idx (List.mem_cons_self idx rest)
    have hndr : rest.Nodup := (List.nodup_cons.mp hnd).2
    have hidxr : idx ∉ rest := (List.nodup_cons.mp hnd).1
    have hCsub : ∀ x ∈ (applyRow st idx (rowStep termEng translate (src idx) sl tl)).completed,
        x ∈ st.completed ∨ x = idx := by
      intro x hx
      rw [applyRow_completed] at hx
      by_cases hc : (rowStep termEng translate (src idx) sl tl).markCompleted = true
      · rw [if_pos hc] at hx
        rcases List.mem_append.mp hx with hx | hx
        · exact Or.inl hx
        · exact Or.inr (List.mem_singleton.mp hx)
      · rw [if_neg hc] at hx
        exact Or.inl hx
    have hFsub : ∀ x ∈ (applyRow st idx (rowStep termEng translate (src idx) sl tl)).failed,
        x ∈ st.failed ∨ x = idx := by
      intro x hx
      rw [applyRow_failed] at hx
      by_cases hc : (rowStep termEng translate (src idx) sl tl).markFailed = true
      · rw [if_pos hc] at hx
        rcases List.mem_append.mp hx with hx | hx
        · exact Or.inl hx
        · exact Or.inr (List.mem_singleton.mp hx)
      · rw [if_neg hc] at hx
        exact Or.inl hx
    have hdisj1 : ∀ x ∈ (applyRow st idx (rowStep termEng translate (src idx) sl tl)).completed,
        x ∉ (applyRow st idx (rowStep termEng translate (src idx) sl tl)).failed := by
      intro x hxC hxF
      rcases hCsub x hxC with hx | rfl
      · rcases hFsub x hxF with hy | rfl
        · exact hdisj x hx hy
        · exact hidxC hx
      · rcases hFsub x hxF with hy | hy
        · exact hidxF hy
        · rw [applyRow_completed] at hxC
          rw [applyRow_failed] at hxF
          by_cases hc : (rowStep termEng translate (src x) sl tl).markCompleted = true
          · have hf : (rowStep termEng translate (src x) sl tl).markFailed = false := by
              rw [hc] at hex
              simpa using hex
            rw [if_neg (by rw [hf]; exact Bool.false_ne_true)] at hxF
            exact hidxF hxF
          · rw [if_neg hc] at hxC
            exact hidxC hxC
    have hfC1 : ∀ x ∈ rest,
        x ∉ (applyRow st idx (rowStep termEng translate (src idx) sl tl)).completed := by
      intro x hx hmem
      rcases hCsub x hmem with hy | rfl
      · exact hfC x (List.mem_cons_of_mem idx hx) hy
      · exact hidxr hx
    have hfF1 : ∀ x ∈ rest,
        x ∉ (applyRow st idx (rowStep termEng translate (src idx) sl tl)).failed := by
      intro x hx hmem
      rcases hFsub x hmem with hy | rfl
      · exact hfF x (List.mem_cons_of_mem idx hx) hy
      · exact hidxr hx
    obtain ⟨h1, h2, h3⟩ := ih (applyRow st idx (rowStep termEng translate (src idx) sl tl))
      hdisj1 hfC1 hfF1 hndr
    refine ⟨h1, ?_, ?_⟩
    · intro x hx
      rcases h2 x hx with hy | hy
      · rcases hCsub x hy with hz | rfl
        · exact Or.inl hz
        · exact Or.inr (List.mem_cons_self x rest)
      · exact Or.inr (List.mem_cons_of_mem idx hy)
    · intro x hx
      rcases h3 x hx with hy | hy
      · rcases hFsub x hy with hz | rfl
        · exact Or.inl hz
        · exact Or.inr (List.mem_cons_self x rest)
      · exact Or.inr (List.mem_cons_of_mem idx hy)

/-- C9: throughout a run, after any executed prefix `p` of the pending row
list, the `completed` and `failed` lists are disjoint, and each contains
only indices the pipeline has considered — indices it started from (a fresh
run starts from empty lists; a resumed run starts from the restored
checkpoint lists) plus indices of processed rows.  The hypotheses hold on
entry: the pending list is built from distinct dataframe indices with the
completed rows excluded, and rows previously marked failed carry a
non-blank error marker in their target cell, so they are not pending
either. -/
theorem c9_progress_disjoint_invariant (termEng : Option TerminologyEngine)
    (translate : String → Except String String) (src : Nat → String) (sl tl : String)
    (pending p q : List Nat) (st : PipeState)
    (hpq : pending = p ++ q)
    (hdisj : ∀ x ∈ st.completed, x ∉ st.failed)
    (hfC : ∀ x ∈ pending, x ∉ st.completed)
    (hfF : ∀ x ∈ pending, x ∉ st.failed)
    (hnd : pending.Nodup) :
    (∀ x ∈ (processRows termEng translate src sl tl st p).completed,
        x ∉ (processRows termEng translate src sl tl st p).failed) ∧
    (∀ x ∈ (processRows termEng translate src sl tl st p).completed,
        x ∈ st.completed ∨ x ∈ p) ∧
    (∀ x ∈ (processRows termEng translate src sl tl st p).failed,
        x ∈ st.failed ∨ x ∈ p) := by
  subst hpq
  exact processRows_inv termEng translate src sl tl p st hdisj
    (fun x hx => hfC x (List.mem_append_left q hx))
    (fun x hx => hfF x (List.mem_append_left q hx))
    (List.Nodup.of_append_left hnd)

theorem c9_progress_disjoint_invariant_witness :
    (∀ x ∈ (processRows none (fun t => Except.ok ("T:" ++ t)) (fun _ => "你好") "zh" "en"
        ⟨[], [7], [8]⟩ [0, 1]).completed,
      x ∉ (processRows none (fun t => Except.ok ("T:" ++ t)) (fun _ => "你好") "zh" "en"
        ⟨[], [7], [8]⟩ [0, 1]).failed) ∧
    (∀ x ∈ (processRows none (fun t => Except.ok ("T:" ++ t)) (fun _ => "你好") "zh" "en"
        ⟨[], [7], [8]⟩ [0, 1]).completed, x ∈ [7] ∨ x ∈ [0, 1]) ∧
    (∀ x ∈ (processRows none (fun t => Except.ok ("T:" ++ t)) (fun _ => "你好") "zh" "en"
        ⟨[], [7], [8]⟩ [0, 1]).failed, x ∈ [8] ∨ x ∈ [0, 1]) :=
  c9_progress_disjoint_invariant none (fun t => Except.ok ("T:" ++ t)) (fun _ => "你好")
    "zh" "en" [0, 1, 2] [0, 1] [2] ⟨[], [7], [8]⟩ rfl
    (by decide) (by decide) (by decide) (by decide)

end LLMTS
